import Mathlib

/-!
Shallow embedding of the transaction-lifecycle core of the exorde worker
client (`src/exorde/protocol/__init__.py`), together with theorems settling
the frozen claims about it.

Conventions of the embedding:
* remote RPC capabilities (`read_web3.eth.*`, `write_web3.eth.*`) are
  injected as `Except Err _` valued parameters: `Except.ok v` models a call
  that returns `v`, `Except.error e` models a call that raises;
* Python numbers that mix `int` and `float` (the gas arithmetic, where
  `* 1.5` produces a float) are modelled in `ℚ`; every value the code
  manipulates (`E * 1.5`, `estimate + 500_000`, the `max` floor) is an exact
  multiple of `1/2`, so the rational model is exact;
* `logging.*` calls are pure no-ops and are not modelled;
* `await asyncio.sleep(t)` is recorded as an event where timing matters.
-/

/-- Error payload carried by a raised exception of a remote call. -/
abbrev Err := String

/-! Section: Gas estimation (`estimate_gas`, protocol/__init__.py lines 316-333) -/

/-- Embedding of the inner `do_estimate_gas` coroutine, as a function of
the raw remote estimate `E` (`read_web3.eth.estimate_gas(transaction)`):

    gas = 100_000  # default gas amount
    estimate = await read_web3.eth.estimate_gas(transaction) * 1.5
    if estimate < 100_000:
        gas = estimate + 500_000
    return max(10_000_000, gas)

Note that the `else` path leaves `gas` at the default `100_000`: the scaled
estimate is only used in the `estimate < 100_000` branch. -/
def do_estimate_gas (E : ℕ) : ℚ :=
  let gas : ℚ := 100000
  let estimate : ℚ := (E : ℚ) * (3 / 2)
  let gas : ℚ := if estimate < 100000 then estimate + 500000 else gas
  max 10000000 gas

/-- Cache key: `(str(transaction["data"])[2:10], len(str(transaction["data"])))`. -/
abbrev GasKey := String × ℕ

/-- The `gas_cache` dict, embedded as an association list (most recent
insertion first, as `find?` returns the first matching entry). -/
abbrev GasCache := List (GasKey × ℚ)

/-- Dict lookup `gas_cache[gas_key]` / membership `gas_key in gas_cache`. -/
def cacheLookup (c : GasCache) (k : GasKey) : Option ℚ :=
  (c.find? (fun p => decide (p.1 = k))).map (fun p => p.2)

/-- The slice of the transaction visible to `estimate_gas`: the call-data
string and the mutable `"gas"` field it fills in. -/
structure Tx where
  data : String
  gas : Option ℚ
deriving DecidableEq, Repr

/-- `gas_key = (function_bytecode, data_length)` where
`function_bytecode = str(data)[2:10]` and `data_length = len(str(data))`. -/
def gasKeyOf (data : String) : GasKey :=
  ((data.drop 2).take 8, data.length)

/-- Result of one `estimate_gas` call: the updated cache, how many times the
injected remote estimator was invoked during the call, and either the
transaction with its `"gas"` field assigned or the propagated exception. -/
structure EstimateResult where
  gas_cache : GasCache
  estimatorCalls : ℕ
  result : Except Err Tx
deriving Repr

/-- Embedding of `estimate_gas(transaction, read_web3, gas_cache)`.  The
remote estimator `read_web3.eth.estimate_gas(transaction)` is the injected
`estimator` argument.  On a cache hit the estimator is not consulted; on a
miss `do_estimate_gas` runs (one estimator invocation), the value is stored
under the key, and `transaction["gas"]` is set from the cache.  If the
estimator raises, the exception propagates (there is no `try` here) and no
cache entry is written. -/
def estimate_gas (tx : Tx) (estimator : Except Err ℕ) (gas_cache : GasCache) :
    EstimateResult :=
  let gas_key := gasKeyOf tx.data
  match cacheLookup gas_cache gas_key with
  | some v => ⟨gas_cache, 0, Except.ok { tx with gas := some v }⟩
  | none =>
      match estimator with
      | Except.error e => ⟨gas_cache, 1, Except.error e⟩
      | Except.ok E =>
          let est := do_estimate_gas E
          ⟨(gas_key, est) :: gas_cache, 1, Except.ok { tx with gas := some est }⟩

/-! Section: Nonce read (`nonce`, lines 197-201) -/

/-- Embedding of `nonce(worker_address, read_web3)`:

    try:
        return await read_web3.eth.get_transaction_count(worker_address)
    except Exception:
        logging.error(...)

The `except` arm logs and falls off the end of the function, so a failed
remote read produces Python `None`; the embedding returns `Option ℕ`. -/
def nonce (getTransactionCount : Except Err ℕ) : Option ℕ :=
  match getTransactionCount with
  | Except.ok n => some n
  | Except.error _ => none

/-! Section: Gateway rotation (`rotate_gateways`, lines 212-223) -/

/-- The hardcoded gateway list, verbatim from the source (note the first
URL appears three times). -/
def gateways : List String :=
  [ "http://ipfs-gateway.exorde.network/ipfs/",
    "http://ipfs-gateway.exorde.network/ipfs/",
    "http://ipfs-gateway.exorde.network/ipfs/",
    "https://w3s.link/ipfs/",
    "https://ipfs.io/ipfs/",
    "https://ipfs.eth.aragon.network/ipfs/",
    "https://api.ipfsbrowser.com/ipfs/get.php?hash=" ]

/-- Embedding of the generator `(gateways[i % len(gateways)] for i in
itertools.count())` returned by `rotate_gateways()`: the sequence as a
function of the position `i` pulled; every fresh generator starts at
`i = 0`. -/
def rotate_gateways (i : ℕ) : String :=
  gateways.get ⟨i % gateways.length, Nat.mod_lt i (by decide)⟩

/-! Section: Nonce-increment poll loop (lines 177-190 of `send_raw_transaction`
and lines 296-310 of `faucet` — the two copies are textually identical):

    for i in range(10):
        sleep_time = i * 1.5 + 1
        await asyncio.sleep(sleep_time)
        current_nounce = await read_web3.eth.get_transaction_count(...)
        if current_nounce > previous_nonce:
            break
-/

/-- The sleep performed at the start of loop iteration `i`:
`sleep_time = i * 1.5 + 1` seconds. -/
def sleepTime (i : ℕ) : ℚ := (i : ℚ) * (3 / 2) + 1

/-- The poll loop, from iteration `i` with `n` iterations left.  `reads j`
is the `get_transaction_count` call of iteration `j` (it may raise, in
which case the exception propagates out of the loop).  On normal exit it
returns the trace of iterations performed, each recorded as
`(sleep duration, observed transaction count)`. -/
def nonceWaitGo (reads : ℕ → Except Err ℕ) (baseline : ℕ) :
    ℕ → ℕ → Except Err (List (ℚ × ℕ))
  | _i, 0 => Except.ok []
  | i, n + 1 =>
      match reads i with
      | Except.error e => Except.error e
      | Except.ok c =>
          if baseline < c then Except.ok [(sleepTime i, c)]
          else
            match nonceWaitGo reads baseline (i + 1) n with
            | Except.error e => Except.error e
            | Except.ok rest => Except.ok ((sleepTime i, c) :: rest)

/-- The parameters the code passes to
`read_web3.eth.wait_for_transaction_receipt(hash, timeout=…, poll_latency=…)`. -/
structure ReceiptWaitCall where
  timeout : ℕ
  pollLatency : ℕ
deriving DecidableEq, Repr

/-- The confirmation-wait phase shared by `send_raw_transaction` and
`faucet`: run the 10-iteration nonce poll loop against `baseline`, then
(unconditionally, whether or not the loop broke early) call
`wait_for_transaction_receipt` with `timeout=120, poll_latency=20`.  The
returned `ReceiptWaitCall` records the parameters of that receipt wait. -/
def confirmationWait (reads : ℕ → Except Err ℕ) (baseline : ℕ) :
    Except Err (List (ℚ × ℕ) × ReceiptWaitCall) :=
  match nonceWaitGo reads baseline 0 10 with
  | Except.error e => Except.error e
  | Except.ok t => Except.ok (t, ⟨120, 20⟩)

/-! Section: Transaction submission (`send_raw_transaction`, lines 169-194) -/

/-- The remote capabilities `send_raw_transaction` and `faucet` consume.
`getTransactionCount k` is the `k`-th `get_transaction_count` call of the
run (call `0` is the baseline read, call `k+1` is poll-loop iteration `k`);
`sendRaw` is `write_web3.eth.send_raw_transaction` (returning a hash);
`waitForReceipt` is `read_web3.eth.wait_for_transaction_receipt`, given the
timeout / poll-latency parameters of the call. -/
structure RemoteEnv where
  getTransactionCount : ℕ → Except Err ℕ
  sendRaw : Except Err ℕ
  waitForReceipt : ReceiptWaitCall → Except Err ℕ

/-- The dictionary `send_raw_transaction` returns:
`{"transaction": None, "current_cid_commit": None}`. -/
structure SendResult where
  transaction : Option ℕ
  current_cid_commit : Option ℕ
deriving DecidableEq, Repr

/-- The body of the `try:` block of `send_raw_transaction`: baseline nonce
read, broadcast, nonce poll loop, then
`wait_for_transaction_receipt(hash, timeout=120, poll_latency=20)`.
The first raised exception aborts the rest of the block. -/
def sendBody (env : RemoteEnv) : Except Err Unit :=
  match env.getTransactionCount 0 with
  | Except.error e => Except.error e
  | Except.ok previous_nonce =>
      match env.sendRaw with
      | Except.error e => Except.error e
      | Except.ok _transaction_hash =>
          match nonceWaitGo (fun i => env.getTransactionCount (i + 1))
              previous_nonce 0 10 with
          | Except.error e => Except.error e
          | Except.ok _trace =>
              match env.waitForReceipt ⟨120, 20⟩ with
              | Except.error e => Except.error e
              | Except.ok _receipt => Except.ok ()

/-- Embedding of `send_raw_transaction(transaction, write_web3, read_web3,
worker_address)`.  The whole body sits in `try: ... except Exception as e:
logging.error(...)`; after the `except` arm the function logs
"A transaction has been confirmed" and returns
`{"transaction": None, "current_cid_commit": None}` — on the failure path
exactly as on the success path. -/
def send_raw_transaction (env : RemoteEnv) : SendResult :=
  match sendBody env with
  | Except.ok _ => ⟨none, none⟩
  | Except.error _ => ⟨none, none⟩

/-- A run in which every remote call succeeds. -/
def envAllOk : RemoteEnv :=
  ⟨fun _ => Except.ok 0, Except.ok 0, fun _ => Except.ok 0⟩

/-- A run in which the remote broadcast rejects the transaction and every
other remote call succeeds. -/
def envBroadcastRejected : RemoteEnv :=
  ⟨fun _ => Except.ok 0, Except.error "rejected", fun _ => Except.ok 0⟩

/-! Section: Faucet funding (`faucet`, lines 272-313) -/

/-- The externally observable steps of a `faucet` run, in program order.
`sign` is the local `sign_transaction`; the rest are remote calls or
sleeps.  `loopStep` records one nonce-poll iteration as
`(sleep duration, observed count)`. -/
inductive FEvent where
  | nonceRead : FEvent
  | sign : FEvent
  | broadcast : FEvent
  | sleepEv : ℚ → FEvent
  | loopStep : ℚ → ℕ → FEvent
  | receiptWait : ℕ → ℕ → FEvent
deriving DecidableEq, Repr

/-- How a `faucet` run ends: `aborted` is `os._exit(1)` (invalid worker
address), `failed e` is an uncaught exception `e` propagating out of the
coroutine (nothing here is wrapped in `try`), `confirmed r` is normal
completion with receipt `r`. -/
inductive FaucetOutcome where
  | aborted : FaucetOutcome
  | failed : Err → FaucetOutcome
  | confirmed : ℕ → FaucetOutcome
deriving DecidableEq, Repr

/-- Embedding of `faucet(__balance__, write_web3, read_web3,
selected_faucet, worker_address)`.  `isAddr` is the result of
`Web3.is_address(worker_address)` (external library call, injected).  On an
invalid address the function logs critically and calls `os._exit(1)` before
any remote interaction.  Otherwise: read the nonce of the faucet account, sign
the value transfer locally, broadcast it, `await asyncio.sleep(3)`, run the
nonce poll loop, and wait for the receipt with `timeout=120,
poll_latency=20`.  The returned list is the trace of steps performed. -/
def faucet (isAddr : Bool) (env : RemoteEnv) : FaucetOutcome × List FEvent :=
  if isAddr then
    match env.getTransactionCount 0 with
    | Except.error e => (FaucetOutcome.failed e, [FEvent.nonceRead])
    | Except.ok previous_nounce =>
        match env.sendRaw with
        | Except.error e =>
            (FaucetOutcome.failed e,
             [FEvent.nonceRead, FEvent.sign, FEvent.broadcast])
        | Except.ok _transaction_hash =>
            match nonceWaitGo (fun i => env.getTransactionCount (i + 1))
                previous_nounce 0 10 with
            | Except.error e =>
                (FaucetOutcome.failed e,
                 [FEvent.nonceRead, FEvent.sign, FEvent.broadcast,
                  FEvent.sleepEv 3])
            | Except.ok t =>
                match env.waitForReceipt ⟨120, 20⟩ with
                | Except.error e =>
                    (FaucetOutcome.failed e,
                     [FEvent.nonceRead, FEvent.sign, FEvent.broadcast,
                      FEvent.sleepEv 3]
                       ++ t.map (fun p => FEvent.loopStep p.1 p.2)
                       ++ [FEvent.receiptWait 120 20])
                | Except.ok r =>
                    (FaucetOutcome.confirmed r,
                     [FEvent.nonceRead, FEvent.sign, FEvent.broadcast,
                      FEvent.sleepEv 3]
                       ++ t.map (fun p => FEvent.loopStep p.1 p.2)
                       ++ [FEvent.receiptWait 120 20])
  else (FaucetOutcome.aborted, [])

/-! Section: Faucet account selection (`select_random_faucet`, lines 259-269) -/

/-- The fixed base secret `private_key_base`, verbatim from the source. -/
def private_key_base : String :=
  "deaddeaddeaddead5fb92d83ed54c0ea1eb74e72a84ef980d42953caaa6d"

/-- The Python format `"%0.4x" % n`: lowercase hex, zero-padded to four
digits (exactly four for every `n < 65536`, in particular for every
faucet index `n < 500`). -/
def hex4 (n : ℕ) : String :=
  ⟨[Nat.digitChar (n / 4096 % 16), Nat.digitChar (n / 256 % 16),
    Nat.digitChar (n / 16 % 16), Nat.digitChar (n % 16)]⟩

/-- Numeric value of one lowercase hex digit character. -/
def hexVal (c : Char) : ℕ :=
  if 97 ≤ c.toNat then c.toNat - 87 else c.toNat - 48

/-- Reads a lowercase-hex string back as a number
(specification-side inverse of the formatter). -/
def hexDecode (s : String) : ℕ :=
  s.data.foldl (fun acc c => acc * 16 + hexVal c) 0

/-- Embedding of `select_random_faucet()`.  The pseudo-random source is
injected as an arbitrary outcome `r`; `random.randrange(0, 499 + 1, 1)`
(external library, modelled from its contract) reduces it to an index in
`[0, 500)`.  The private key is
`private_key_base + ("%0.4x" % selected_faucet_index)`. -/
def select_random_faucet (r : ℕ) : ℕ × String :=
  let selected_faucet_index := r % 500
  let hex_selector_bytes := hex4 selected_faucet_index
  (selected_faucet_index, private_key_base ++ hex_selector_bytes)

/-! Section: Theorems -/

/-- Helper: the gas computation is constant — whatever the raw estimate `E`,
both branches produce a value at most `600_000`, which the
`max(10_000_000, gas)` floor then replaces with `10_000_000`. -/
theorem do_estimate_gas_const (E : ℕ) : do_estimate_gas E = 10000000 := by
  unfold do_estimate_gas
  by_cases h : (E : ℚ) * (3 / 2) < 100000
  · simp only [h, if_true]
    have hE : (0 : ℚ) ≤ (E : ℚ) * (3 / 2) := by positivity
    rw [max_eq_left (by linarith)]
  · simp only [h, if_false]
    rw [max_eq_left (by norm_num)]

/-- Helper: a freshly inserted cache entry is found by the next lookup. -/
theorem cacheLookup_cons_self (c : GasCache) (k : GasKey) (v : ℚ) :
    cacheLookup ((k, v) :: c) k = some v := by
  simp [cacheLookup, List.find?]

/-- Claim C10: on every cache miss, whatever non-negative raw value `E` the
remote estimator returns, the gas value computed, stored in the cache and
assigned to the transaction is exactly 10,000,000 — the `else` branch keeps
the default `100_000` rather than the scaled estimate, and the
`max(10_000_000, ·)` floor then dominates both branches. -/
theorem gas_on_miss_is_always_ten_million (tx : Tx) (E : ℕ) (c : GasCache)
    (hmiss : cacheLookup c (gasKeyOf tx.data) = none) :
    estimate_gas tx (Except.ok E) c =
      ⟨(gasKeyOf tx.data, 10000000) :: c, 1,
       Except.ok { tx with gas := some 10000000 }⟩ := by
  simp [estimate_gas, hmiss, do_estimate_gas_const]

/-- Witness for C10: a concrete miss with raw estimate 3 stores and assigns
10,000,000. -/
theorem gas_on_miss_witness :
    estimate_gas ⟨"0xdeadbeef00", none⟩ (Except.ok 3) [] =
      ⟨[(("deadbeef", 12), 10000000)], 1,
       Except.ok ⟨"0xdeadbeef00", some 10000000⟩⟩ :=
  gas_on_miss_is_always_ten_million ⟨"0xdeadbeef00", none⟩ 3 [] rfl

/-- Claim C1, the code at the failing input: with the gas key uncached and
the remote estimator returning `E = 7_000_000`, the code computes
10,000,000, whereas the claimed formula `max(10_000_000, E * 1.5)`
(the branch the claim selects, since `E * 1.5 ≥ 150_000`) gives
10,500,000. -/
theorem gas_estimate_code_at_failing_input :
    do_estimate_gas 7000000 = 10000000 ∧
    max (10000000 : ℚ) (7000000 * (3 / 2)) = 10500000 ∧
    (10000000 : ℚ) ≠ 10500000 := by
  refine ⟨do_estimate_gas_const 7000000, by norm_num, by norm_num⟩

/-- Claim C6: on an uncached key, a failing remote estimator propagates its
error out of `estimate_gas` (the estimator was invoked once) and the cache
is left unchanged — no entry is written for the key. -/
theorem estimation_error_propagates_cache_unchanged (tx : Tx) (c : GasCache)
    (e : Err) (hmiss : cacheLookup c (gasKeyOf tx.data) = none) :
    estimate_gas tx (Except.error e) c = ⟨c, 1, Except.error e⟩ := by
  simp [estimate_gas, hmiss]

/-- Witness for C6: a concrete failing estimation on an empty cache. -/
theorem estimation_error_witness :
    estimate_gas ⟨"0xdeadbeef00", none⟩ (Except.error "remote down") [] =
      ⟨[], 1, Except.error "remote down"⟩ :=
  estimation_error_propagates_cache_unchanged ⟨"0xdeadbeef00", none⟩ []
    "remote down" rfl

/-- Claim C5, counterexample: when the remote transaction-count read fails,
`nonce` does not propagate the failure — it logs and returns Python `None`
(a non-integer default). -/
theorem nonce_failure_returns_none :
    nonce (Except.error "network failure") = none := rfl

/-- Claim C5, amended: on remote failure `nonce` logs the error and returns
`None` (no exception reaches the caller); on success it returns the count. -/
theorem nonce_amended :
    (∀ e : Err, nonce (Except.error e) = none) ∧
    (∀ n : ℕ, nonce (Except.ok n) = some n) :=
  ⟨fun _ => rfl, fun _ => rfl⟩

/-- Claim C7, counterexample: the hardcoded list contains
`http://ipfs-gateway.exorde.network/ipfs/` three times, so in the first
`2 * N` elements of a fresh sequence that URL appears six times, not
twice. -/
theorem gateway_url_appears_six_times :
    "http://ipfs-gateway.exorde.network/ipfs/" ∈ gateways ∧
    ((List.range (2 * gateways.length)).map rotate_gateways).count
        "http://ipfs-gateway.exorde.network/ipfs/" = 6 := by
  decide

/-- Claim C7, amended: the first `2 * N` elements of a fresh sequence are
the hardcoded list traversed twice in original order (so each list
URL at each position appears twice in order, though duplicated URLs appear more
than twice as strings), and each fresh sequence starts at index 0. -/
theorem gateway_rotation_amended :
    (List.range (2 * gateways.length)).map rotate_gateways =
      gateways ++ gateways ∧
    rotate_gateways 0 = "http://ipfs-gateway.exorde.network/ipfs/" := by
  decide

/-- Claim C8: with an invalid worker address (`Web3.is_address` false),
`faucet` aborts the process before any remote interaction: the outcome is
`aborted` and the step trace is empty — no nonce read, no signing, no
broadcast. -/
theorem faucet_aborts_on_invalid_address (isAddr : Bool) (env : RemoteEnv)
    (h : isAddr = false) :
    faucet isAddr env = (FaucetOutcome.aborted, []) := by
  subst h
  rfl

/-- Witness for C8: a concrete run with a failed address validation. -/
theorem faucet_aborts_witness :
    faucet false envAllOk = (FaucetOutcome.aborted, []) :=
  faucet_aborts_on_invalid_address false envAllOk rfl

/-- Helper: `Nat.digitChar` and `hexVal` are inverse on hex digits. -/
theorem hexVal_digitChar : ∀ d : ℕ, d < 16 → hexVal (Nat.digitChar d) = d := by
  decide

/-- Helper: the 4-hex-digit formatter is decoded back to its input for
every `n < 65536`. -/
theorem hexDecode_hex4 (n : ℕ) (h : n < 65536) : hexDecode (hex4 n) = n := by
  have h1 : n / 4096 % 16 < 16 := Nat.mod_lt _ (by norm_num)
  have h2 : n / 256 % 16 < 16 := Nat.mod_lt _ (by norm_num)
  have h3 : n / 16 % 16 < 16 := Nat.mod_lt _ (by norm_num)
  have h4 : n % 16 < 16 := Nat.mod_lt _ (by norm_num)
  unfold hexDecode hex4
  simp only [List.foldl]
  rw [hexVal_digitChar _ h1, hexVal_digitChar _ h2, hexVal_digitChar _ h3,
    hexVal_digitChar _ h4]
  omega

/-- Claim C9: for every outcome `r` of the random source, the selected
index lies in `[0, 500)` and the derived private key is exactly the fixed
base secret followed by the 4-hex-digit representation of that index (the
suffix has length 4 and decodes back to the index); the derivation is a
deterministic function of base and index. -/
theorem select_random_faucet_in_range_and_deterministic (r : ℕ) :
    (select_random_faucet r).1 < 500 ∧
    (select_random_faucet r).2 =
      private_key_base ++ hex4 (select_random_faucet r).1 ∧
    (hex4 (select_random_faucet r).1).length = 4 ∧
    hexDecode (hex4 (select_random_faucet r).1) = (select_random_faucet r).1 := by
  refine ⟨Nat.mod_lt r (by norm_num), rfl, rfl, ?_⟩
  exact hexDecode_hex4 _ (lt_trans (Nat.mod_lt r (by norm_num)) (by norm_num))

/-- Claim C2: two `estimate_gas` calls whose transactions share the
function selector (`str(data)[2:10]`) and payload length, starting from a
cache without that key, assign the same gas value to both transactions and
invoke the injected remote estimator exactly once — the second call is a
cache hit that performs no remote call. -/
theorem gas_cache_idempotent (tx1 tx2 : Tx) (c : GasCache) (E : ℕ)
    (hsel : (tx1.data.drop 2).take 8 = (tx2.data.drop 2).take 8)
    (hlen : tx1.data.length = tx2.data.length)
    (hmiss : cacheLookup c (gasKeyOf tx1.data) = none) :
    (estimate_gas tx1 (Except.ok E) c).estimatorCalls = 1 ∧
    (estimate_gas tx2 (Except.ok E)
        (estimate_gas tx1 (Except.ok E) c).gas_cache).estimatorCalls = 0 ∧
    (estimate_gas tx1 (Except.ok E) c).result =
      Except.ok { tx1 with gas := some (do_estimate_gas E) } ∧
    (estimate_gas tx2 (Except.ok E)
        (estimate_gas tx1 (Except.ok E) c).gas_cache).result =
      Except.ok { tx2 with gas := some (do_estimate_gas E) } := by
  have hkey : gasKeyOf tx2.data = gasKeyOf tx1.data := by
    simp [gasKeyOf, hsel, hlen]
  have h1 : estimate_gas tx1 (Except.ok E) c =
      ⟨(gasKeyOf tx1.data, do_estimate_gas E) :: c, 1,
       Except.ok { tx1 with gas := some (do_estimate_gas E) }⟩ := by
    simp [estimate_gas, hmiss]
  have h2 : estimate_gas tx2 (Except.ok E)
      ((gasKeyOf tx1.data, do_estimate_gas E) :: c) =
      ⟨(gasKeyOf tx1.data, do_estimate_gas E) :: c, 0,
       Except.ok { tx2 with gas := some (do_estimate_gas E) }⟩ := by
    simp [estimate_gas, hkey, cacheLookup_cons_self]
  rw [h1, h2]
  exact ⟨rfl, rfl, rfl, rfl⟩

/-- Witness for C2: two concrete transactions with identical call data, an
empty cache, and a remote estimate of 50,000. -/
theorem gas_cache_idempotent_witness :
    (estimate_gas ⟨"0xaabbccdd99", none⟩ (Except.ok 50000) []).estimatorCalls
      = 1 ∧
    (estimate_gas ⟨"0xaabbccdd77", none⟩ (Except.ok 50000)
        (estimate_gas ⟨"0xaabbccdd99", none⟩ (Except.ok 50000)
          []).gas_cache).estimatorCalls = 0 ∧
    (estimate_gas ⟨"0xaabbccdd99", none⟩ (Except.ok 50000) []).result =
      Except.ok ⟨"0xaabbccdd99", some (do_estimate_gas 50000)⟩ ∧
    (estimate_gas ⟨"0xaabbccdd77", none⟩ (Except.ok 50000)
        (estimate_gas ⟨"0xaabbccdd99", none⟩ (Except.ok 50000)
          []).gas_cache).result =
      Except.ok ⟨"0xaabbccdd77", some (do_estimate_gas 50000)⟩ :=
  gas_cache_idempotent ⟨"0xaabbccdd99", none⟩ ⟨"0xaabbccdd77", none⟩ [] 50000
    rfl rfl rfl

/-- Claim C3, counterexample: with every other remote call succeeding but
the broadcast rejecting the transaction, the `try` body of
`send_raw_transaction` fails, yet the function returns exactly the same
normal completion value as a fully successful run — the failure is
swallowed, not surfaced. -/
theorem send_raw_transaction_counterexample :
    sendBody envBroadcastRejected = Except.error "rejected" ∧
    send_raw_transaction envBroadcastRejected =
      send_raw_transaction envAllOk := by
  exact ⟨rfl, rfl⟩

/-- Claim C3, amended: when the remote broadcast rejects the transaction or
the receipt wait fails (e.g. exceeds its timeout), the exception is caught
by the blanket `except` arm of `send_raw_transaction`, which logs it and
completes normally, returning `{"transaction": None, "current_cid_commit":
None}` exactly as on success — the failure is not surfaced to the
caller. -/
theorem send_raw_transaction_swallows_failures (env : RemoteEnv) (e : Err)
    (h : env.sendRaw = Except.error e ∨
      env.waitForReceipt ⟨120, 20⟩ = Except.error e) :
    (∃ e2, sendBody env = Except.error e2) ∧
    send_raw_transaction env = ⟨none, none⟩ := by
  constructor
  · cases hb : sendBody env with
    | error e2 => exact ⟨e2, rfl⟩
    | ok u =>
        exfalso
        unfold sendBody at hb
        split at hb
        · exact Except.noConfusion hb
        · split at hb
          · exact Except.noConfusion hb
          · split at hb
            · exact Except.noConfusion hb
            · split at hb
              · exact Except.noConfusion hb
              · rcases h with h | h <;> simp_all
  · unfold send_raw_transaction
    cases sendBody env <;> rfl

/-- Witness for the amended theorem of C3: the concrete rejected-broadcast run. -/
theorem send_raw_transaction_swallows_witness :
    (∃ e2, sendBody envBroadcastRejected = Except.error e2) ∧
    send_raw_transaction envBroadcastRejected = ⟨none, none⟩ :=
  send_raw_transaction_swallows_failures envBroadcastRejected "rejected"
    (Or.inl rfl)

/-- Helper: full characterisation of the nonce poll loop under reads that
all succeed, started at iteration `i` with `n` iterations left: the loop
exits normally with a nonempty trace of at most `n` iterations; iteration
`j` of the trace sleeps `sleepTime (i + j)` and observes `counts (i + j)`;
every iteration before the last observed a count not above the baseline;
and if the loop stopped before exhausting its budget, its last observation
exceeded the baseline. -/
theorem nonceWaitGo_pure (counts : ℕ → ℕ) (baseline : ℕ) :
    ∀ n i : ℕ, ∃ t : List (ℚ × ℕ),
      nonceWaitGo (fun j => Except.ok (counts j)) baseline i n = Except.ok t ∧
      t.length ≤ n ∧
      (n ≠ 0 → t ≠ []) ∧
      (∀ j (hj : j < t.length), t.get ⟨j, hj⟩ =
        (sleepTime (i + j), counts (i + j))) ∧
      (∀ j, j + 1 < t.length → counts (i + j) ≤ baseline) ∧
      (t.length < n → baseline < counts (i + t.length - 1)) := by
  intro n
  induction n with
  | zero =>
      intro i
      refine ⟨[], rfl, le_refl 0, by simp, ?_, ?_, ?_⟩
      · intro j hj; exact absurd hj (by simp)
      · intro j hj; simp only [List.length_nil] at hj; omega
      · intro hlt; simp only [List.length_nil] at hlt; omega
  | succ n ih =>
      intro i
      by_cases hcase : baseline < counts i
      · refine ⟨[(sleepTime i, counts i)], ?_, by simp, by simp, ?_, ?_, ?_⟩
        · unfold nonceWaitGo
          simp [hcase]
        · intro j hj
          simp only [List.length_singleton] at hj
          interval_cases j
          simp
        · intro j hj
          simp only [List.length_singleton] at hj
          omega
        · intro _
          simpa using hcase
      · obtain ⟨rest, heq, hlen, hne, hget, hmono, hlast⟩ := ih (i + 1)
        refine ⟨(sleepTime i, counts i) :: rest, ?_, by simpa using hlen,
          by simp, ?_, ?_, ?_⟩
        · unfold nonceWaitGo
          simp [hcase, heq]
        · intro j hj
          cases j with
          | zero => simp
          | succ j' =>
              have hj' : j' < rest.length := by
                simpa using hj
              have harith : i + 1 + j' = i + (j' + 1) := by omega
              simp only [List.get_cons_succ]
              rw [hget j' hj', harith]
        · intro j hj
          cases j with
          | zero => simpa using le_of_not_lt hcase
          | succ j' =>
              have hj' : j' + 1 < rest.length := by
                simpa using hj
              have := hmono j' hj'
              have harith : i + 1 + j' = i + (j' + 1) := by omega
              rwa [harith] at this
        · intro hlt
          have hrest_lt : rest.length < n := by
            simpa using hlt
          have hn : n ≠ 0 := by omega
          have hrest_ne : rest ≠ [] := hne hn
          have hrest_pos : 0 < rest.length := List.length_pos.mpr hrest_ne
          have := hlast hrest_lt
          have harith : i + 1 + rest.length - 1 =
              i + ((sleepTime i, counts i) :: rest).length - 1 := by
            simp only [List.length_cons]
            omega
          rwa [harith] at this

/-- Claim C4: under successful remote reads, the confirmation wait performs
at most 10 poll attempts (and at least one); attempt `j` sleeps
`j * 1.5 + 1` seconds and then observes `counts j`; every attempt before
the last saw a count not exceeding the baseline (so the loop exits as soon
as the count exceeds it, the last attempt being the exceeding one whenever
the loop stopped early); and the receipt wait with `timeout=120,
poll_latency=20` is attempted afterwards in every case, whether or not the
nonce ever incremented. -/
theorem confirmation_wait_schedule (counts : ℕ → ℕ) (baseline : ℕ) :
    ∃ t : List (ℚ × ℕ),
      confirmationWait (fun j => Except.ok (counts j)) baseline =
        Except.ok (t, ⟨120, 20⟩) ∧
      0 < t.length ∧ t.length ≤ 10 ∧
      (∀ j (hj : j < t.length), t.get ⟨j, hj⟩ = (sleepTime j, counts j)) ∧
      (∀ j, j + 1 < t.length → counts j ≤ baseline) ∧
      (t.length < 10 → baseline < counts (t.length - 1)) := by
  obtain ⟨t, heq, hlen, hne, hget, hmono, hlast⟩ :=
    nonceWaitGo_pure counts baseline 10 0
  refine ⟨t, ?_, ?_, hlen, ?_, ?_, ?_⟩
  · unfold confirmationWait
    rw [heq]
  · exact List.length_pos.mpr (hne (by norm_num))
  · intro j hj
    simpa using hget j hj
  · intro j hj
    simpa using hmono j hj
  · intro hlt
    simpa using hlast hlt

/-- Witness for C4: a concrete run in which the count never increments, so
the loop runs its full 10 attempts, and the receipt wait with
`timeout=120, poll_latency=20` is still attempted. -/
theorem confirmation_wait_schedule_witness :
    ∃ t : List (ℚ × ℕ),
      confirmationWait (fun _ => Except.ok 0) 0 = Except.ok (t, ⟨120, 20⟩) ∧
      0 < t.length ∧ t.length ≤ 10 ∧
      (∀ j (hj : j < t.length), t.get ⟨j, hj⟩ = (sleepTime j, 0)) ∧
      (∀ j, j + 1 < t.length → 0 ≤ 0) ∧
      (t.length < 10 → 0 < 0) :=
  confirmation_wait_schedule (fun _ => 0) 0

/-- Witness for C9: the concrete random outcome 12845 selects index 345
with key suffix the 4-hex-digit form of 345. -/
theorem select_random_faucet_witness :
    (select_random_faucet 12845).1 < 500 ∧
    (select_random_faucet 12845).2 =
      private_key_base ++ hex4 (select_random_faucet 12845).1 ∧
    (hex4 (select_random_faucet 12845).1).length = 4 ∧
    hexDecode (hex4 (select_random_faucet 12845).1) =
      (select_random_faucet 12845).1 :=
  select_random_faucet_in_range_and_deterministic 12845
